import Mathlib

/- Shallow embedding of the ai-school repository: the Remotion renderer
   (remotion/types.ts, Composition.tsx, components/Slide.tsx, the two
   render/renderVideo.ts variants, server.ts), the SQL migrations under
   backend/migrations, and spec-modelled fragments of the Python
   orchestration backend that is not part of the snapshot. -/

/-- SlideContent from renderer/src/remotion/types.ts. -/
structure SlideContent where
  title : String
  bullets : List String
  visual_prompt : String
deriving Repr, DecidableEq

/-- TimelineSegment from renderer/src/remotion/types.ts. JS numbers are
modelled as rationals; audio_path and image_path are optional fields added
by the backend after asset generation. -/
structure TimelineSegment where
  segment_id : String
  start_time_seconds : ℚ
  duration_seconds : ℚ
  slide : SlideContent
  narration_text : String
  audio_path : Option String := none
  image_path : Option String := none
deriving Repr, DecidableEq

/-- VideoStyle from renderer/src/remotion/types.ts. -/
structure VideoStyle where
  backgroundColor : String
  primaryColor : String
  accentColor : String
  fontFamily : String
deriving Repr, DecidableEq

/-- DEFAULT_STYLE from renderer/src/remotion/types.ts. -/
def DEFAULT_STYLE : VideoStyle :=
  { backgroundColor := "#FAFAFA"
    primaryColor := "#1A1A2E"
    accentColor := "#4A69BD"
    fontFamily := "Inter, system-ui, sans-serif" }

/-- RenderRequest from renderer/src/remotion/types.ts. -/
structure RenderRequest where
  job_id : String
  output_path : String
  fps : ℚ
  width : ℚ
  height : ℚ
  title : String
  total_duration_seconds : ℚ
  segments : List TimelineSegment
  style : Option VideoStyle := none
deriving Repr, DecidableEq

/-- JS Math.round on a rational: round half toward positive infinity,
that is the floor of x + 1/2. -/
def jsRound (x : ℚ) : ℤ := ⌊x + 1 / 2⌋

/-- One Remotion Sequence element produced by the TeacherTrainingVideo
composition: its start frame, its length in frames, its display name, and
the src of the Audio element rendered inside the Sequence (none when the
segment has no audio_path, since the Audio tag is emitted conditionally).
-/
structure SequenceSpec where
  fromFrame : ℤ
  durationInFrames : ℤ
  name : String
  audio : Option String
deriving Repr, DecidableEq

/-- Body of TeacherTrainingVideo (Composition.tsx): the map over segments,
carrying the running index and the mutable currentFrame accumulator. Each
segment yields a Sequence starting at the accumulated frame count with
durationInFrames equal to jsRound of duration_seconds times fps; the
accumulator then advances by that amount. Note that start_time_seconds is
not read at all. -/
def buildSequences (fps : ℚ) : List TimelineSegment → Nat → ℤ → List SequenceSpec
  | [], _, _ => []
  | seg :: rest, index, currentFrame =>
    let durationFrames : ℤ := jsRound (seg.duration_seconds * fps)
    { fromFrame := currentFrame
      durationInFrames := durationFrames
      name := "Segment " ++ toString (index + 1) ++ ": " ++ seg.slide.title
      audio := seg.audio_path } ::
      buildSequences fps rest (index + 1) (currentFrame + durationFrames)

/-- TeacherTrainingVideo from Composition.tsx: fps is fixed at 30 inside
the component and the segments are laid out back to back from frame 0. -/
def TeacherTrainingVideo (segments : List TimelineSegment) : List SequenceSpec :=
  buildSequences 30 segments 0 0

/-- Two demo segments with durations 5 and 4 seconds and audio paths. -/
def demoSegments : List TimelineSegment :=
  [ { segment_id := "seg_001", start_time_seconds := 0, duration_seconds := 5
      slide := { title := "A", bullets := [], visual_prompt := "a" }
      narration_text := "first", audio_path := some "a.mp3" },
    { segment_id := "seg_002", start_time_seconds := 5, duration_seconds := 4
      slide := { title := "B", bullets := [], visual_prompt := "b" }
      narration_text := "second", audio_path := some "b.mp3" } ]

/-- Timeline whose start_time_seconds values pass the generate-stage
validation (strictly increasing) but are inconsistent with the cumulative
durations: s2 claims to start at 100 seconds while the durations place it
at 5 seconds. -/
def inconsistentTimeline : List TimelineSegment :=
  [ { segment_id := "s1", start_time_seconds := 0, duration_seconds := 5
      slide := { title := "Intro", bullets := [], visual_prompt := "intro" }
      narration_text := "intro" },
    { segment_id := "s2", start_time_seconds := 100, duration_seconds := 4
      slide := { title := "Next", bullets := [], visual_prompt := "next" }
      narration_text := "next" } ]

/-- Modelled from the spec: the job status values of section 3; the Python
backend holding the Job class is not part of the snapshot. -/
inductive JobStatus
  | pending
  | processing
  | completed
  | failed
  | cancelled
deriving Repr, DecidableEq

/-- Modelled from the spec: the pipeline stage values of section 3. -/
inductive JobStage
  | extract
  | generate
  | images
  | tts
  | render
deriving Repr, DecidableEq

/-- Modelled from the spec: the Job record fields of section 3 that the
orchestration claims use; the backend Python code is not part of the
snapshot, only its SQL migrations are. -/
structure Job where
  status : JobStatus
  current_stage : Option JobStage
  timeline_path : Option String
  error_message : Option String
  error_stage : Option JobStage
  retry_count : Nat
deriving Repr, DecidableEq

/-- Modelled from the spec: the configured band for the total timeline
duration used by the generate-stage validation. -/
structure ValidationConfig where
  minTotalSeconds : ℚ
  maxTotalSeconds : ℚ
deriving Repr, DecidableEq

/-- Modelled from the spec: strict monotonicity of a list of start times,
part of the generate-stage temporal validation. -/
def strictlyIncreasing : List ℚ → Bool
  | [] => true
  | [_] => true
  | a :: b :: rest => decide (a < b) && strictlyIncreasing (b :: rest)

/-- Modelled from the spec: the structural and temporal timeline validation
of the generate stage (section 4.3): segment count above zero, non-negative
durations, strictly increasing start_time_seconds, and total duration
within the configured band. -/
def validateTimeline (cfg : ValidationConfig) (segments : List TimelineSegment) : Bool :=
  decide (0 < segments.length) &&
  segments.all (fun s => decide (0 ≤ s.duration_seconds)) &&
  strictlyIncreasing (segments.map fun s => s.start_time_seconds) &&
  decide (cfg.minTotalSeconds ≤ (segments.map fun s => s.duration_seconds).sum) &&
  decide ((segments.map fun s => s.duration_seconds).sum ≤ cfg.maxTotalSeconds)

/-- Modelled from the spec: the orchestrator handling of the generate stage
result (sections 4.3 and 4.4 step 5): a timeline failing validation is a
non-retryable StageError, so the job transitions to failed with the error
stage set to generate and no timeline_path recorded; on success the
timeline path is recorded and the job advances. -/
def runGenerateStage (cfg : ValidationConfig) (job : Job)
    (timeline : List TimelineSegment) (timelinePath : String) : Job :=
  if validateTimeline cfg timeline then
    { job with timeline_path := some timelinePath
               current_stage := some JobStage.images }
  else
    { job with status := JobStatus.failed
               current_stage := none
               error_message := some "Timeline validation failed"
               error_stage := some JobStage.generate }

/-- RenderResult from render/renderVideo.ts. -/
structure RenderResult where
  outputPath : String
  durationSeconds : ℚ
deriving Repr, DecidableEq

namespace RendererA

/-- renderVideo, first variant in the render module (the one resolving the
bundle entry point with the CommonJS dirname): the value it returns.
Bundling, composition selection and media rendering are awaited external
effects that do not contribute to the returned RenderResult; the progress
logging (every 10 percent) is also effect-only. The result is outputPath
equal to output_path and durationSeconds equal to totalDurationFrames
divided by fps, where totalDurationFrames is the reduce over segments of
jsRound of duration_seconds times fps, starting from 0. -/
def renderVideo (request : RenderRequest) : RenderResult :=
  let totalDurationFrames : ℤ :=
    request.segments.foldl
      (fun total seg => total + jsRound (seg.duration_seconds * request.fps)) 0
  { outputPath := request.output_path
    durationSeconds := (totalDurationFrames : ℚ) / request.fps }

end RendererA

namespace RendererB

/-- renderVideo, second variant in the render module (the one resolving the
bundle entry point through fileURLToPath of the module URL): the value it
returns. It differs from the first variant only in module-path resolution
and in its progress logging (every 5 percent), both awaited external
effects; the returned RenderResult is computed the same way, outputPath
equal to output_path and durationSeconds equal to the reduce over segments
of jsRound of duration_seconds times fps, starting from 0, divided by fps.
-/
def renderVideo (request : RenderRequest) : RenderResult :=
  let totalDurationFrames : ℤ :=
    request.segments.foldl
      (fun total seg => total + jsRound (seg.duration_seconds * request.fps)) 0
  { outputPath := request.output_path
    durationSeconds := (totalDurationFrames : ℚ) / request.fps }

end RendererB

/-- Render request with three segments of durations 5, 4 and 6 seconds at
30 fps, matching the scenario of section 8 of the spec. -/
def exampleRequest : RenderRequest :=
  { job_id := "job-1", output_path := "/out/video.mp4", fps := 30, width := 1920
    height := 1080, title := "Demo", total_duration_seconds := 15
    segments :=
      [ { segment_id := "s1", start_time_seconds := 0, duration_seconds := 5
          slide := { title := "S1", bullets := [], visual_prompt := "p1" }
          narration_text := "n1" },
        { segment_id := "s2", start_time_seconds := 5, duration_seconds := 4
          slide := { title := "S2", bullets := [], visual_prompt := "p2" }
          narration_text := "n2" },
        { segment_id := "s3", start_time_seconds := 9, duration_seconds := 6
          slide := { title := "S3", bullets := [], visual_prompt := "p3" }
          narration_text := "n3" } ] }

/-- Variant of exampleRequest agreeing on fps and on every duration but
differing in title, total_duration_seconds, width, height and style. -/
def exampleRequestVariant : RenderRequest :=
  { exampleRequest with title := "Other", total_duration_seconds := 999
                        width := 1280, height := 720, style := some DEFAULT_STYLE }

/-- Parsed body of a POST to the render endpoint as server.ts reads it: the
three fields the handler checks may each be absent. -/
structure RenderRequestBody where
  job_id : Option String
  output_path : Option String
  segments : Option (List TimelineSegment)
deriving Repr, DecidableEq

/-- RenderResponse from renderer/src/remotion/types.ts. -/
structure RenderResponse where
  success : Bool
  output_path : Option String := none
  duration_seconds : Option ℚ := none
  error : Option String := none
deriving Repr, DecidableEq

/-- HTTP response produced by the render endpoint: status code plus the
JSON body. -/
structure HttpResponse where
  status : Nat
  body : RenderResponse
deriving Repr, DecidableEq

/-- JS truthiness of an optional string field: undefined (absent) and the
empty string are falsy, every other string is truthy. -/
def strTruthy : Option String → Bool
  | none => false
  | some s => s != ""

/-- JS truthiness of the optional segments array: undefined (absent) is
falsy, every array (even the empty one) is truthy. -/
def segmentsTruthy : Option (List TimelineSegment) → Bool
  | none => false
  | some _ => true

/-- The POST handler for the render route in server.ts. The awaited call to
renderVideo is an external effect that may throw; its outcome is passed
explicitly, ok for a normal return and error for a thrown message, standing
for the try and catch around it. The guard mirrors the source condition on
the negated truthiness of job_id, output_path and segments; res.json with
no status gives 200. -/
def handleRender (body : RenderRequestBody) (outcome : Except String RenderResult) :
    HttpResponse :=
  if !strTruthy body.job_id || !strTruthy body.output_path || !segmentsTruthy body.segments then
    { status := 400
      body := { success := false
                error := some "Missing required fields: job_id, output_path, segments" } }
  else
    match outcome with
    | Except.ok result =>
        { status := 200
          body := { success := true
                    output_path := some result.outputPath
                    duration_seconds := some result.durationSeconds } }
    | Except.error e =>
        { status := 500
          body := { success := false, error := some e } }

/-- Body whose three checked fields are all present but whose job_id is the
empty string, hence falsy in JS. -/
def emptyJobIdBody : RenderRequestBody :=
  { job_id := some "", output_path := some "/out/video.mp4", segments := some [] }

/-- Body with job_id absent. -/
def missingJobIdBody : RenderRequestBody :=
  { job_id := none, output_path := some "/out/video.mp4", segments := some [] }

/-- A successful render result value. -/
def okResult : RenderResult := { outputPath := "/out/video.mp4", durationSeconds := 15 }

/-- Values of the job_status enum created by the executed CREATE TYPE
statement of migration 001. Migration 003 only mentions adding cancelled in
a comment that instructs a manual command, which is not executed DDL, so
cancelled is not a member. -/
def job_status : List String := ["pending", "processing", "completed", "failed"]

/-- Values of the job_stage enum created by migration 001. -/
def job_stage : List String := ["extract", "generate", "images", "tts", "render"]

/-- Default value of a column in the migrations: NOW(), a string literal,
an integer literal, or the empty JSON object literal. -/
inductive SqlDefault
  | nowTimestamp
  | strVal (s : String)
  | intVal (n : ℤ)
  | emptyJsonObject
deriving Repr, DecidableEq

/-- One column of the jobs table: name, SQL type, NOT NULL flag, PRIMARY
KEY flag and DEFAULT clause. -/
structure ColumnDef where
  name : String
  sqlType : String
  notNull : Bool := false
  primaryKey : Bool := false
  defaultVal : Option SqlDefault := none
deriving Repr, DecidableEq

/-- Columns of the jobs table after applying migrations 001, 002 and 003 in
order, transcribed from the CREATE TABLE and ALTER TABLE statements. -/
def jobsColumns : List ColumnDef :=
  [ { name := "id", sqlType := "VARCHAR(36)", primaryKey := true },
    { name := "created_at", sqlType := "TIMESTAMP", notNull := true
      defaultVal := some SqlDefault.nowTimestamp },
    { name := "updated_at", sqlType := "TIMESTAMP", notNull := true
      defaultVal := some SqlDefault.nowTimestamp },
    { name := "completed_at", sqlType := "TIMESTAMP" },
    { name := "status", sqlType := "job_status", notNull := true
      defaultVal := some (SqlDefault.strVal "pending") },
    { name := "current_stage", sqlType := "job_stage" },
    { name := "stage_progress", sqlType := "INTEGER"
      defaultVal := some (SqlDefault.intVal 0) },
    { name := "original_filename", sqlType := "VARCHAR(255)", notNull := true },
    { name := "pdf_path", sqlType := "VARCHAR(512)", notNull := true },
    { name := "timeline_path", sqlType := "VARCHAR(512)" },
    { name := "audio_path", sqlType := "VARCHAR(512)" },
    { name := "video_path", sqlType := "VARCHAR(512)" },
    { name := "video_duration_seconds", sqlType := "REAL" },
    { name := "slide_count", sqlType := "INTEGER" },
    { name := "error_message", sqlType := "TEXT" },
    { name := "error_stage", sqlType := "job_stage" },
    { name := "retry_count", sqlType := "INTEGER"
      defaultVal := some (SqlDefault.intVal 0) },
    { name := "stage_started_at", sqlType := "TIMESTAMP" },
    { name := "stage_durations", sqlType := "JSONB"
      defaultVal := some SqlDefault.emptyJsonObject },
    { name := "cancel_requested", sqlType := "INTEGER"
      defaultVal := some (SqlDefault.intVal 0) } ]

/-- DEFAULT clause of the named column of the jobs table, when the column
exists. -/
def columnDefault (n : String) : Option (Option SqlDefault) :=
  (jobsColumns.find? (fun c => c.name == n)).map (fun c => c.defaultVal)

/-- Boolean reading of the integer cancel_requested column, as documented
by the comment of migration 003: 0 is false and 1 is true. -/
def sqlIntAsBool (n : ℤ) : Bool := n != 0

/-- Remotion interpolate restricted to a two-point input range, with one
clamp flag per side matching extrapolateLeft and extrapolateRight; when a
side is not clamped the linear map extends past the range (the default
extend behavior). -/
def interpolate (frame i1 i2 o1 o2 : ℚ) (clampLeft clampRight : Bool) : ℚ :=
  if clampLeft && decide (frame < i1) then o1
  else if clampRight && decide (i2 < frame) then o2
  else o1 + (frame - i1) / (i2 - i1) * (o2 - o1)

/-- Fade-in opacity of the Slide component (Slide.tsx): interpolate the
current frame over input range 0 to 15 and output range 0 to 1, clamping
only on the right. -/
def slideOpacity (frame : ℚ) : ℚ := interpolate frame 0 15 0 1 false true

/-- Fade-out opacity of the Slide component (Slide.tsx): interpolate over
input range durationFrames minus 15 to durationFrames and output range 1 to
0, clamping on both sides. -/
def slideFadeOutOpacity (frame durationFrames : ℚ) : ℚ :=
  interpolate frame (durationFrames - 15) durationFrames 1 0 true true

/-- finalOpacity of the Slide component: Math.min of the fade-in and the
fade-out opacities. -/
def slideFinalOpacity (frame durationFrames : ℚ) : ℚ :=
  min (slideOpacity frame) (slideFadeOutOpacity frame durationFrames)

/-- Validation band used in the concrete examples. -/
def cfg0 : ValidationConfig := { minTotalSeconds := 0, maxTotalSeconds := 600 }

/-- A job mid-processing at the generate stage with no artifacts yet. -/
def job0 : Job :=
  { status := JobStatus.processing, current_stage := some JobStage.generate
    timeline_path := none, error_message := none, error_stage := none
    retry_count := 0 }

/-- jsRound coincides with the Mathlib rounding function. -/
theorem jsRound_eq_round (x : ℚ) : jsRound x = round x := by
  rw [jsRound, round_eq]

theorem buildSequences_getElem (fps : ℚ) (segments : List TimelineSegment)
    (idx0 : Nat) (c0 : ℤ) (i : Nat) (h : i < segments.length) :
    (buildSequences fps segments idx0 c0)[i]? = some
      { fromFrame :=
          c0 + ((segments.take i).map fun s => jsRound (s.duration_seconds * fps)).sum
        durationInFrames := jsRound (segments[i].duration_seconds * fps)
        name := "Segment " ++ toString (idx0 + i + 1) ++ ": " ++ segments[i].slide.title
        audio := segments[i].audio_path } := by
  induction segments generalizing idx0 c0 i with
  | nil => simp at h
  | cons seg rest ih =>
    cases i with
    | zero => simp [buildSequences]
    | succ j =>
      have hj : j < rest.length := by simpa using h
      have := ih (idx0 + 1) (c0 + jsRound (seg.duration_seconds * fps)) j hj
      simp only [buildSequences, List.getElem?_cons_succ, List.take_succ_cons,
        List.map_cons, List.sum_cons, List.getElem_cons_succ] at this ⊢
      rw [this]
      simp only [Option.some.injEq, SequenceSpec.mk.injEq]
      have harg : idx0 + 1 + j + 1 = idx0 + (j + 1) + 1 := by omega
      refine ⟨by ring, trivial, ?_, trivial⟩
      rw [harg]

/-- C1: in the rendered composition, for every list of segments and every
index i below its length, segment i occupies a Sequence of exactly jsRound
of duration_seconds times fps frames (fps being the fixed 30), starting at
the cumulative sum of the preceding segments rounded durations, and the
Audio element carrying the segments audio_path sits inside that Sequence.
The frame fields are given by a formula in the duration_seconds values
alone, so the duration of the audio file itself never changes the frame
timing. -/
theorem C1_sequence_layout (segments : List TimelineSegment) (i : Nat)
    (h : i < segments.length) :
    (TeacherTrainingVideo segments)[i]? = some
      { fromFrame := ((segments.take i).map fun s => jsRound (s.duration_seconds * 30)).sum
        durationInFrames := jsRound (segments[i].duration_seconds * 30)
        name := "Segment " ++ toString (i + 1) ++ ": " ++ segments[i].slide.title
        audio := segments[i].audio_path } := by
  have := buildSequences_getElem 30 segments 0 0 i h
  simpa [TeacherTrainingVideo] using this

/-- Witness for C1 at the two demo segments: the second Sequence starts at
frame 150, lasts 120 frames and carries the second audio path. -/
theorem C1_sequence_layout_witness :
    1 < demoSegments.length ∧
    (TeacherTrainingVideo demoSegments)[1]? = some
      { fromFrame := 150, durationInFrames := 120
        name := "Segment 2: B", audio := some "b.mp3" } := by
  refine ⟨by decide, ?_⟩
  have h := C1_sequence_layout demoSegments 1 (by decide)
  rw [h]
  simp [demoSegments]
  norm_num [jsRound]
  decide

/-- C2: evidence against the claim at a concrete failing input. The
timeline inconsistentTimeline passes the spec-modelled generate-stage
validation, so it reaches the downstream stages; its second segment carries
an authoritative start time of 100 seconds, which is frame 3000 at 30 fps,
while the cumulative rounded durations place it at frame 150. The
TeacherTrainingVideo composition never reads start_time_seconds: it
silently re-derives the position of the segment from the cumulative
durations and emits a Sequence starting at frame 150 instead of causing a
failure, contrary to the claim and to requirement 2 of INSTRUCTIONS.md. -/
theorem C2_render_rederives_positions :
    validateTimeline cfg0 inconsistentTimeline = true ∧
    jsRound ((inconsistentTimeline.get ⟨1, by decide⟩).start_time_seconds * 30) = 3000 ∧
    (TeacherTrainingVideo inconsistentTimeline)[1]? = some
      { fromFrame := 150, durationInFrames := 120
        name := "Segment 2: Next", audio := none } := by
  have h150 : jsRound ((5 : ℚ) * 30) = 150 := by norm_num [jsRound]
  have h120 : jsRound ((4 : ℚ) * 30) = 120 := by norm_num [jsRound]
  refine ⟨?_, ?_, ?_⟩
  · simp [validateTimeline, inconsistentTimeline, cfg0, strictlyIncreasing]
    norm_num
  · norm_num [inconsistentTimeline, jsRound]
  · simp [TeacherTrainingVideo, buildSequences, inconsistentTimeline, h150, h120]
    decide

/-- C3: for every timeline returned by the generate stage that fails the
structural or temporal validation (segment count not above zero, a negative
duration, start times not strictly increasing, or total duration outside
the configured band), the job ends failed with error stage generate and no
timeline_path set. The orchestrator is modelled from the spec, since the
Python backend is not part of the snapshot. -/
theorem C3_generate_validation_failure (cfg : ValidationConfig) (job : Job)
    (timeline : List TimelineSegment) (timelinePath : String)
    (hnone : job.timeline_path = none)
    (hbad : timeline.length = 0 ∨ (∃ s ∈ timeline, s.duration_seconds < 0) ∨
      strictlyIncreasing (timeline.map fun s => s.start_time_seconds) = false ∨
      (timeline.map fun s => s.duration_seconds).sum < cfg.minTotalSeconds ∨
      cfg.maxTotalSeconds < (timeline.map fun s => s.duration_seconds).sum) :
    (runGenerateStage cfg job timeline timelinePath).status = JobStatus.failed ∧
    (runGenerateStage cfg job timeline timelinePath).error_stage = some JobStage.generate ∧
    (runGenerateStage cfg job timeline timelinePath).timeline_path = none := by
  have hval : validateTimeline cfg timeline = false := by
    cases hv : validateTimeline cfg timeline with
    | false => rfl
    | true =>
      exfalso
      simp only [validateTimeline, Bool.and_eq_true, decide_eq_true_eq,
        List.all_eq_true] at hv
      obtain ⟨⟨⟨⟨hlen, hpos⟩, hinc⟩, hmin⟩, hmax⟩ := hv
      rcases hbad with h | h | h | h | h
      · omega
      · obtain ⟨s, hs, hneg⟩ := h
        have h0 := hpos s hs
        simp at h0
        linarith
      · rw [h] at hinc
        exact Bool.false_ne_true hinc
      · linarith
      · linarith
  simp [runGenerateStage, hval, hnone]

/-- Witness for C3 at the empty timeline: validation fails on the segment
count and the job ends failed at generate with no timeline path. -/
theorem C3_generate_validation_failure_witness :
    job0.timeline_path = none ∧ ([] : List TimelineSegment).length = 0 ∧
    (runGenerateStage cfg0 job0 [] "timeline.json").status = JobStatus.failed ∧
    (runGenerateStage cfg0 job0 [] "timeline.json").error_stage = some JobStage.generate ∧
    (runGenerateStage cfg0 job0 [] "timeline.json").timeline_path = none := by
  have h := C3_generate_validation_failure cfg0 job0 [] "timeline.json" rfl (Or.inl rfl)
  exact ⟨rfl, rfl, h.1, h.2.1, h.2.2⟩

theorem foldl_add_eq_add_sum {α : Type} (g : α → ℤ) (l : List α) (init : ℤ) :
    l.foldl (fun total s => total + g s) init = init + (l.map g).sum := by
  induction l generalizing init with
  | nil => simp
  | cons a t ih =>
    simp only [List.foldl_cons, List.map_cons, List.sum_cons, ih]
    ring

theorem map_jsRound_comp (fps : ℚ) (l : List TimelineSegment) :
    (l.map fun s => jsRound (s.duration_seconds * fps)) =
      (l.map fun s => s.duration_seconds).map fun d => jsRound (d * fps) := by
  induction l with
  | nil => rfl
  | cons a t ih => simp [ih]

theorem renderVideo_durationSeconds (r : RenderRequest) :
    (RendererA.renderVideo r).durationSeconds =
      (((r.segments.map fun s => jsRound (s.duration_seconds * r.fps)).sum : ℤ) : ℚ) / r.fps := by
  simp [RendererA.renderVideo, foldl_add_eq_add_sum]

/-- C4: renderVideo returns durationSeconds equal to the sum over segments
of jsRound of duration_seconds times fps, divided by fps; in particular a
request at 30 fps whose three segments have durations 5, 4 and 6 seconds
gets durationSeconds 15. -/
theorem C4_renderVideo_duration (r : RenderRequest) :
    (RendererA.renderVideo r).durationSeconds =
      (((r.segments.map fun s => jsRound (s.duration_seconds * r.fps)).sum : ℤ) : ℚ) / r.fps ∧
    (r.fps = 30 → (r.segments.map fun s => s.duration_seconds) = [5, 4, 6] →
      (RendererA.renderVideo r).durationSeconds = 15) := by
  refine ⟨renderVideo_durationSeconds r, ?_⟩
  intro hfps hdur
  rw [renderVideo_durationSeconds r, map_jsRound_comp r.fps r.segments, hdur, hfps]
  norm_num [jsRound]

/-- Witness for C4 at exampleRequest: fps is 30, the durations are 5, 4 and
6 seconds, and the returned durationSeconds is 15. -/
theorem C4_renderVideo_duration_witness :
    exampleRequest.fps = 30 ∧
    (exampleRequest.segments.map fun s => s.duration_seconds) = [5, 4, 6] ∧
    (RendererA.renderVideo exampleRequest).durationSeconds = 15 :=
  ⟨rfl, rfl, (C4_renderVideo_duration exampleRequest).2 rfl rfl⟩

/-- C8: the two renderVideo implementations in the render module compute
the same RenderResult for every request; their differences, the progress
logging cadence and the module path resolution, are external effects with
no bearing on the returned value. -/
theorem C8_renderVideo_variants_agree (r : RenderRequest) :
    RendererA.renderVideo r = RendererB.renderVideo r := rfl

/-- C9: the durationSeconds returned by renderVideo is a function only of
fps and the list of segment durations: two requests agreeing on those agree
on the returned durationSeconds, whatever their total_duration_seconds,
title, width, height or style; in particular total_duration_seconds has no
influence on the result. -/
theorem C9_duration_depends_only_on_fps_and_durations (r1 r2 : RenderRequest)
    (hfps : r1.fps = r2.fps)
    (hdur : (r1.segments.map fun s => s.duration_seconds) =
      (r2.segments.map fun s => s.duration_seconds)) :
    (RendererA.renderVideo r1).durationSeconds =
      (RendererA.renderVideo r2).durationSeconds := by
  rw [renderVideo_durationSeconds r1, renderVideo_durationSeconds r2]
  rw [hfps, map_jsRound_comp r2.fps r1.segments, map_jsRound_comp r2.fps r2.segments, hdur]

/-- Witness for C9: exampleRequest and its variant differ in title,
total_duration_seconds, width, height and style but agree on fps and on
every duration, and renderVideo returns the same durationSeconds on both.
-/
theorem C9_duration_depends_only_on_fps_and_durations_witness :
    exampleRequest.fps = exampleRequestVariant.fps ∧
    (exampleRequest.segments.map fun s => s.duration_seconds) =
      (exampleRequestVariant.segments.map fun s => s.duration_seconds) ∧
    exampleRequest.total_duration_seconds ≠ exampleRequestVariant.total_duration_seconds ∧
    exampleRequest.title ≠ exampleRequestVariant.title ∧
    exampleRequest.width ≠ exampleRequestVariant.width ∧
    exampleRequest.height ≠ exampleRequestVariant.height ∧
    exampleRequest.style ≠ exampleRequestVariant.style ∧
    (RendererA.renderVideo exampleRequest).durationSeconds =
      (RendererA.renderVideo exampleRequestVariant).durationSeconds := by
  refine ⟨rfl, rfl, by decide, by decide, by decide, by decide, by decide, ?_⟩
  exact C9_duration_depends_only_on_fps_and_durations exampleRequest exampleRequestVariant rfl rfl

/-- C5: counterexample to the claim as stated. The body emptyJobIdBody has
all three checked fields present (none of them is absent), yet the handler
responds 400 with success false, because the JS truthiness guard also
rejects a present but empty job_id string; the claim asserts that whenever
none of the three fields is absent the response is either success true or
status 500. -/
theorem C5_truthiness_counterexample :
    emptyJobIdBody.job_id ≠ none ∧ emptyJobIdBody.output_path ≠ none ∧
    emptyJobIdBody.segments ≠ none ∧
    (handleRender emptyJobIdBody (Except.ok okResult)).status = 400 ∧
    (handleRender emptyJobIdBody (Except.ok okResult)).body.success = false := by
  refine ⟨by simp [emptyJobIdBody], by simp [emptyJobIdBody],
    by simp [emptyJobIdBody], rfl, rfl⟩

/-- C5 amended: if job_id or output_path is absent or empty, or segments is
absent (the JS-falsy cases the guard actually checks), the response is a
400 with success false and an error message, and no render outcome affects
it; otherwise the response is the 200 success response carrying output_path
and duration_seconds when renderVideo returns, or a 500 with success false
and the thrown error string when it throws; and a response never carries
success true together with an error, nor success true without both
output_path and duration_seconds. -/
theorem C5_render_endpoint_amended (body : RenderRequestBody)
    (outcome : Except String RenderResult) :
    (((strTruthy body.job_id && strTruthy body.output_path &&
        segmentsTruthy body.segments) = false) →
      (handleRender body outcome).status = 400 ∧
      (handleRender body outcome).body.success = false ∧
      (handleRender body outcome).body.error ≠ none ∧
      ∀ outcome2 : Except String RenderResult,
        handleRender body outcome2 = handleRender body outcome) ∧
    (((strTruthy body.job_id && strTruthy body.output_path &&
        segmentsTruthy body.segments) = true) →
      ((∃ result, outcome = Except.ok result ∧ handleRender body outcome =
          { status := 200
            body := { success := true, output_path := some result.outputPath
                      duration_seconds := some result.durationSeconds
                      error := none } }) ∨
       (∃ e, outcome = Except.error e ∧ handleRender body outcome =
          { status := 500
            body := { success := false, output_path := none
                      duration_seconds := none, error := some e } }))) ∧
    ((handleRender body outcome).body.success = true →
      (handleRender body outcome).body.error = none ∧
      (handleRender body outcome).body.output_path ≠ none ∧
      (handleRender body outcome).body.duration_seconds ≠ none) := by
  have hcond : (!strTruthy body.job_id || !strTruthy body.output_path ||
      !segmentsTruthy body.segments) =
      !(strTruthy body.job_id && strTruthy body.output_path &&
        segmentsTruthy body.segments) := by
    cases strTruthy body.job_id <;> cases strTruthy body.output_path <;>
      cases segmentsTruthy body.segments <;> rfl
  refine ⟨?_, ?_, ?_⟩
  · intro hfalse
    have hr : ∀ o : Except String RenderResult, handleRender body o =
        { status := 400
          body := { success := false, output_path := none, duration_seconds := none
                    error := some "Missing required fields: job_id, output_path, segments" } } := by
      intro o
      unfold handleRender
      rw [hcond, hfalse]
      rfl
    rw [hr outcome]
    exact ⟨rfl, rfl, by simp, fun o2 => by rw [hr o2]⟩
  · intro htrue
    have hif : (!strTruthy body.job_id || !strTruthy body.output_path ||
        !segmentsTruthy body.segments) = false := by
      rw [hcond, htrue]
      rfl
    cases outcome with
    | ok result =>
      refine Or.inl ⟨result, rfl, ?_⟩
      unfold handleRender
      rw [hif]
      rfl
    | error e =>
      refine Or.inr ⟨e, rfl, ?_⟩
      unfold handleRender
      rw [hif]
      rfl
  · intro hsucc
    cases hc : (strTruthy body.job_id && strTruthy body.output_path &&
        segmentsTruthy body.segments) with
    | false =>
      exfalso
      have hfalse : (handleRender body outcome).body.success = false := by
        unfold handleRender
        rw [hcond, hc]
        rfl
      exact Bool.false_ne_true (hfalse.symm.trans hsucc)
    | true =>
      have hif : (!strTruthy body.job_id || !strTruthy body.output_path ||
          !segmentsTruthy body.segments) = false := by
        rw [hcond, hc]
        rfl
      cases outcome with
      | ok result =>
        have hr : handleRender body (Except.ok result) =
            { status := 200
              body := { success := true, output_path := some result.outputPath
                        duration_seconds := some result.durationSeconds
                        error := none } } := by
          unfold handleRender
          rw [hif]
          rfl
        rw [hr]
        exact ⟨rfl, by simp, by simp⟩
      | error e =>
        exfalso
        have hfalse : (handleRender body (Except.error e)).body.success = false := by
          unfold handleRender
          rw [hif]
          rfl
        exact Bool.false_ne_true (hfalse.symm.trans hsucc)

/-- Witness for C5 amended at a body with job_id absent: the truthiness
guard fails and the response is a 400. -/
theorem C5_render_endpoint_amended_witness :
    ((strTruthy missingJobIdBody.job_id && strTruthy missingJobIdBody.output_path &&
      segmentsTruthy missingJobIdBody.segments) = false) ∧
    (handleRender missingJobIdBody (Except.ok okResult)).status = 400 := by
  refine ⟨rfl, ?_⟩
  exact ((C5_render_endpoint_amended missingJobIdBody (Except.ok okResult)).1 rfl).1

/-- C6: counterexample to the claim as stated: cancelled is not a member of
the job_status enum created by the executed migrations, so the status
enumeration does not contain the five claimed members. -/
theorem C6_cancelled_missing_counterexample : "cancelled" ∉ job_status := by
  decide

/-- C6 amended: the stage enumeration contains exactly extract, generate,
images, tts and render; the status enumeration created by the migrations
contains exactly pending, processing, completed and failed — cancelled is
absent, since migration 003 leaves adding it to a manual ALTER TYPE command
quoted only in a comment. -/
theorem C6_enums_amended :
    (∀ s : String, s ∈ job_status ↔
      s = "pending" ∨ s = "processing" ∨ s = "completed" ∨ s = "failed") ∧
    (∀ s : String, s ∈ job_stage ↔
      s = "extract" ∨ s = "generate" ∨ s = "images" ∨ s = "tts" ∨ s = "render") := by
  constructor <;> intro s <;> simp [job_status, job_stage]

/-- C7: the jobs table keys one row per job by the primary key id and has a
column for every Job field of section 3 — id, the four timestamps, status,
current_stage, stage_progress, the input references, the three artifact
paths, the derived metadata, the error fields, retry_count, the
stage_durations mapping defaulting to the empty JSON object, and the
cancel_requested flag stored as an integer defaulting to 0, which the
migration 003 comment reads as false — with status defaulting to pending
and retry_count defaulting to 0. -/
theorem C7_jobs_schema :
    jobsColumns.map ColumnDef.name =
      ["id", "created_at", "updated_at", "completed_at", "status", "current_stage",
       "stage_progress", "original_filename", "pdf_path", "timeline_path",
       "audio_path", "video_path", "video_duration_seconds", "slide_count",
       "error_message", "error_stage", "retry_count", "stage_started_at",
       "stage_durations", "cancel_requested"] ∧
    (jobsColumns.find? (fun c => c.name == "id")).map ColumnDef.primaryKey = some true ∧
    columnDefault "status" = some (some (SqlDefault.strVal "pending")) ∧
    columnDefault "retry_count" = some (some (SqlDefault.intVal 0)) ∧
    columnDefault "stage_durations" = some (some SqlDefault.emptyJsonObject) ∧
    columnDefault "cancel_requested" = some (some (SqlDefault.intVal 0)) ∧
    sqlIntAsBool 0 = false :=
  ⟨rfl, rfl, rfl, rfl, rfl, rfl, rfl⟩

theorem slideOpacity_eq (f : ℚ) :
    slideOpacity f = if 15 < f then 1 else f / 15 := by
  unfold slideOpacity interpolate
  simp only [Bool.false_and, Bool.true_and, decide_eq_true_eq, Bool.false_eq_true,
    if_false]
  split_ifs with h
  · rfl
  · ring

theorem slideFadeOutOpacity_eq (f d : ℚ) :
    slideFadeOutOpacity f d =
      if f < d - 15 then 1 else if d < f then 0 else 1 - (f - (d - 15)) / 15 := by
  unfold slideFadeOutOpacity interpolate
  simp only [Bool.true_and, decide_eq_true_eq]
  split_ifs with h1 h2
  · rfl
  · rfl
  · have h15 : d - (d - 15) = 15 := by ring
    rw [h15]
    ring

theorem slideOpacity_bounds (f : ℚ) (hf : 0 ≤ f) :
    0 ≤ slideOpacity f ∧ slideOpacity f ≤ 1 := by
  rw [slideOpacity_eq]
  split_ifs with h
  · norm_num
  · have h15 : f ≤ 15 := not_lt.mp h
    constructor
    · exact div_nonneg hf (by norm_num)
    · rw [div_le_one (by norm_num : (0:ℚ) < 15)]
      exact h15

theorem slideFadeOutOpacity_bounds (f d : ℚ) :
    0 ≤ slideFadeOutOpacity f d ∧ slideFadeOutOpacity f d ≤ 1 := by
  rw [slideFadeOutOpacity_eq]
  split_ifs with h1 h2
  · norm_num
  · norm_num
  · have ha : d - 15 ≤ f := not_lt.mp h1
    have hb : f ≤ d := not_lt.mp h2
    have ht0 : 0 ≤ (f - (d - 15)) / 15 := div_nonneg (by linarith) (by norm_num)
    have ht1 : (f - (d - 15)) / 15 ≤ 1 := by
      rw [div_le_one (by norm_num : (0:ℚ) < 15)]
      linarith
    constructor <;> linarith

theorem slideOpacity_one (f : ℚ) (hf : 15 ≤ f) : slideOpacity f = 1 := by
  rw [slideOpacity_eq]
  split_ifs with h
  · rfl
  · have hf15 : f = 15 := le_antisymm (not_lt.mp h) hf
    rw [hf15]
    norm_num

theorem slideFadeOutOpacity_one (f d : ℚ) (h : f ≤ d - 15) :
    slideFadeOutOpacity f d = 1 := by
  rw [slideFadeOutOpacity_eq]
  split_ifs with h1 h2
  · rfl
  · exfalso
    linarith
  · have hf : f = d - 15 := le_antisymm h (not_lt.mp h1)
    rw [hf, sub_self]
    norm_num

/-- C10: for every frame at least 0 and every durationFrames, the Slide
finalOpacity — the minimum of the fade-in interpolation clamped on the
right over frames 0 to 15 and the fade-out interpolation clamped on both
sides over the last 15 frames — lies in the closed interval from 0 to 1;
and when durationFrames is at least 30, finalOpacity equals 1 on every
frame from 15 through durationFrames minus 15. -/
theorem C10_slide_opacity :
    (∀ frame durationFrames : ℚ, 0 ≤ frame →
      0 ≤ slideFinalOpacity frame durationFrames ∧
      slideFinalOpacity frame durationFrames ≤ 1) ∧
    (∀ frame durationFrames : ℚ, 30 ≤ durationFrames → 15 ≤ frame →
      frame ≤ durationFrames - 15 → slideFinalOpacity frame durationFrames = 1) := by
  constructor
  · intro f d hf
    have h1 := slideOpacity_bounds f hf
    have h2 := slideFadeOutOpacity_bounds f d
    unfold slideFinalOpacity
    exact ⟨le_min h1.1 h2.1, le_trans (min_le_left _ _) h1.2⟩
  · intro f d hd h15 hfd
    unfold slideFinalOpacity
    rw [slideOpacity_one f h15, slideFadeOutOpacity_one f d hfd, min_self]

/-- Witness for C10 at frame 20 of a 60-frame slide: the final opacity is
between 0 and 1 and equals 1. -/
theorem C10_slide_opacity_witness :
    ((0:ℚ) ≤ 20 ∧ 0 ≤ slideFinalOpacity 20 60 ∧ slideFinalOpacity 20 60 ≤ 1) ∧
    ((30:ℚ) ≤ 60 ∧ (15:ℚ) ≤ 20 ∧ (20:ℚ) ≤ 60 - 15 ∧ slideFinalOpacity 20 60 = 1) := by
  have h1 := (C10_slide_opacity).1 20 60 (by norm_num)
  have h2 := (C10_slide_opacity).2 20 60 (by norm_num) (by norm_num) (by norm_num)
  exact ⟨⟨by norm_num, h1.1, h1.2⟩, ⟨by norm_num, by norm_num, by norm_num, h2⟩⟩
